import Mathlib

/-!
Shallow embedding of the interactive engines of `src/src/App.tsx`
(a single-page wedding website): the countdown timer, the canvas
particle field, the intersection-observer visibility hook, the
navbar / page router, and the RSVP form, together with theorems
about the properties stated for them.

JS numbers are modelled as exact rationals (`ℚ`) where fractional
values occur, and as `ℕ`/`ℤ` where the code only ever handles
integers.  The browser APIs (`setInterval`, `IntersectionObserver`,
`fetch`, DOM events) are modelled as explicit event lists fed to
step functions; the code inside the callbacks is translated from the
source.
-/

/-! ### Countdown engine (`CountdownSection`, App.tsx lines 480-544) -/

/-- The `timeLeft` record of `CountdownSection`: four display strings. -/
structure TimeLeft where
  days : String
  hours : String
  minutes : String
  seconds : String
deriving Repr, DecidableEq

/-- The all-zero display, both the initial `useState` value and the
terminal value (App.tsx lines 482-487 and 498). -/
def TimeLeft.zero : TimeLeft :=
  { days := "00", hours := "00", minutes := "00", seconds := "00" }

/-- JavaScript `s.padStart(w, c)`: prepend copies of `c` until the
length is at least `w`; a string already of length `≥ w` is returned
unchanged (never truncated). -/
def padStart (s : String) (w : Nat) (c : Char) : String :=
  if w ≤ s.length then s else String.mk (List.replicate (w - s.length) c) ++ s

/-- `String(n).padStart(2, '0')` applied to a non-negative integer
(App.tsx lines 508-511); `Nat.repr` is the decimal representation. -/
def renderUnit (n : Nat) : String :=
  padStart (Nat.repr n) 2 '0'

/-- The decomposition of a non-negative `distance` in milliseconds
(App.tsx lines 502-505): `Math.floor` on non-negative values is
natural-number division. -/
def computeUnits (d : Nat) : Nat × Nat × Nat × Nat :=
  ( d / (1000 * 60 * 60 * 24)
  , d % (1000 * 60 * 60 * 24) / (1000 * 60 * 60)
  , d % (1000 * 60 * 60) / (1000 * 60)
  , d % (1000 * 60) / 1000 )

/-- The rendered tuple for a non-negative distance (App.tsx lines 507-512). -/
def renderTimeLeft (d : Nat) : TimeLeft :=
  { days := renderUnit (computeUnits d).1
  , hours := renderUnit (computeUnits d).2.1
  , minutes := renderUnit (computeUnits d).2.2.1
  , seconds := renderUnit (computeUnits d).2.2.2 }

/-- State of the countdown effect: whether the `setInterval` timer is
still registered, and the current `timeLeft` state. -/
structure CountdownState where
  running : Bool
  timeLeft : TimeLeft
deriving Repr, DecidableEq

/-- State right after mount: timer registered, display all zeros
(App.tsx lines 482-492). -/
def countdownInitial : CountdownState :=
  { running := true, timeLeft := TimeLeft.zero }

/-- One interval tick (App.tsx lines 492-513).  `distance`
(`weddingDate - now`, an integer count of milliseconds) is the tick's
input.  If the timer has been cleared the callback no longer fires, so
the state is unchanged.  If `distance < 0` the tick clears the interval
and sets the all-zero display; otherwise it renders the decomposition. -/
def countdownTick (s : CountdownState) (distance : Int) : CountdownState :=
  if s.running = false then s
  else if distance < 0 then { running := false, timeLeft := TimeLeft.zero }
  else { running := true, timeLeft := renderTimeLeft distance.toNat }

/-- A run of the countdown over a list of tick distances. -/
def countdownRun (s : CountdownState) (ds : List Int) : CountdownState :=
  ds.foldl countdownTick s

lemma countdownRun_stopped (s : CountdownState) (h : s.running = false) :
    ∀ ds : List Int, countdownRun s ds = s := by
  intro ds
  induction ds with
  | nil => rfl
  | cons d ds ih =>
      show countdownRun (countdownTick s d) ds = s
      have : countdownTick s d = s := by
        unfold countdownTick
        simp [h]
      rw [this]
      exact ih

/-- **C1.** On a tick whose distance is negative, the countdown emits
the all-zero tuple `"00","00","00","00"`, clears the recurring timer,
and afterwards never changes again: any further sequence of ticks
leaves the state frozen at the all-zero display. -/
theorem countdown_terminal (s : CountdownState) (d : Int) (ds : List Int)
    (hrun : s.running = true) (hd : d < 0) :
    (countdownTick s d).timeLeft = TimeLeft.zero ∧
    (countdownTick s d).running = false ∧
    countdownRun (countdownTick s d) ds = countdownTick s d := by
  have hstep : countdownTick s d = { running := false, timeLeft := TimeLeft.zero } := by
    unfold countdownTick
    simp [hrun, hd]
  refine ⟨by rw [hstep], by rw [hstep], ?_⟩
  exact countdownRun_stopped _ (by rw [hstep]) ds

/-- Witness for C1 at a concrete past-target run: distance `-5000`,
followed by two more would-be ticks. -/
theorem countdown_terminal_witness :
    (countdownTick countdownInitial (-5000)).timeLeft = TimeLeft.zero ∧
    (countdownTick countdownInitial (-5000)).running = false ∧
    countdownRun (countdownTick countdownInitial (-5000)) [1000, -3] =
      countdownTick countdownInitial (-5000) :=
  countdown_terminal countdownInitial (-5000) [1000, -3] rfl (by decide)

/-- **C2.** For every non-negative distance `d` in milliseconds, the
decomposed days/hours/minutes/seconds reconstruct a total
`days*86400000 + hours*3600000 + minutes*60000 + seconds*1000` that is
at most `d` and greater than `d - 1000`; each value is rendered as its
decimal string left-padded with `'0'` to a minimum width of 2 and never
truncated (the decimal string is always a suffix of the output, so a
value `≥ 100` such as `100` renders as `"100"`); and
`d = 90061000` renders as `"01","01","01","01"`. -/
theorem countdown_decompose (d : Nat) :
    ((computeUnits d).1 * 86400000 + (computeUnits d).2.1 * 3600000 +
      (computeUnits d).2.2.1 * 60000 + (computeUnits d).2.2.2 * 1000 ≤ d ∧
     d < (computeUnits d).1 * 86400000 + (computeUnits d).2.1 * 3600000 +
      (computeUnits d).2.2.1 * 60000 + (computeUnits d).2.2.2 * 1000 + 1000) ∧
    (∀ n : Nat, 2 ≤ (renderUnit n).length ∧
      ∃ pad : String, renderUnit n = pad ++ Nat.repr n) ∧
    renderUnit 100 = "100" ∧
    renderTimeLeft 90061000 = { days := "01", hours := "01", minutes := "01", seconds := "01" } := by
  refine ⟨?_, ?_, by decide, by decide⟩
  · have h1 : 86400000 * (d / 86400000) + d % 86400000 = d := Nat.div_add_mod d 86400000
    have h2 : 3600000 * (d % 86400000 / 3600000) + d % 86400000 % 3600000 = d % 86400000 :=
      Nat.div_add_mod (d % 86400000) 3600000
    have h3 : 60000 * (d % 3600000 / 60000) + d % 3600000 % 60000 = d % 3600000 :=
      Nat.div_add_mod (d % 3600000) 60000
    have h4 : 1000 * (d % 60000 / 1000) + d % 60000 % 1000 = d % 60000 :=
      Nat.div_add_mod (d % 60000) 1000
    have m2 : d % 86400000 % 3600000 = d % 3600000 :=
      Nat.mod_mod_of_dvd d (by norm_num)
    have m3 : d % 3600000 % 60000 = d % 60000 :=
      Nat.mod_mod_of_dvd d (by norm_num)
    have m4 : d % 60000 % 1000 = d % 1000 :=
      Nat.mod_mod_of_dvd d (by norm_num)
    have hlt : d % 1000 < 1000 := Nat.mod_lt d (by norm_num)
    unfold computeUnits
    simp only
    omega
  · intro n
    unfold renderUnit padStart
    by_cases h : 2 ≤ (Nat.repr n).length
    · refine ⟨by simp [h], "", by simp [h]⟩
    · have hlen : (String.mk (List.replicate (2 - (Nat.repr n).length) '0') ++ Nat.repr n).length =
          2 - (Nat.repr n).length + (Nat.repr n).length := by
        rw [String.length_append, String.length_mk, List.length_replicate]
      refine ⟨?_, String.mk (List.replicate (2 - (Nat.repr n).length) '0'), by simp [h]⟩
      simp only [h, if_false]
      rw [hlen]
      omega

/-! ### Particle field (`ParticleBackground`, App.tsx lines 167-257)

Canvas coordinates and speeds are JS numbers, modelled as exact
rationals.  `Math.random()` values are modelled as explicit rational
parameters constrained to `[0, 1)` in the theorems. -/

/-- A particle's mutable numeric fields (App.tsx lines 179-198); the
fixed color string and the canvas/context handles are omitted. -/
structure Particle where
  x : ℚ
  y : ℚ
  size : ℚ
  speedX : ℚ
  speedY : ℚ
deriving Repr, DecidableEq

/-- The `Particle` constructor (App.tsx lines 189-198) with the five
`Math.random()` draws made explicit:
`x = r1 * width`, `y = r2 * height`, `size = r3 * 5 + 1`,
`speedX = r4 * 3 - 1.5`, `speedY = r5 * 3 - 1.5`. -/
def Particle.create (width height r1 r2 r3 r4 r5 : ℚ) : Particle :=
  { x := r1 * width
  , y := r2 * height
  , size := r3 * 5 + 1
  , speedX := r4 * 3 - 3/2
  , speedY := r5 * 3 - 3/2 }

/-- `Particle.update` (App.tsx lines 201-206): add the speed to the
position, then for each axis independently negate that axis's speed
when the new position is outside `[0, extent]`; the position itself is
not corrected. -/
def Particle.update (width height : ℚ) (p : Particle) : Particle :=
  let nx := p.x + p.speedX
  let ny := p.y + p.speedY
  { p with
    x := nx
    y := ny
    speedX := if nx > width ∨ nx < 0 then -p.speedX else p.speedX
    speedY := if ny > height ∨ ny < 0 then -p.speedY else p.speedY }

/-- `numberOfParticles` (App.tsx line 222): `canvas.width * canvas.height / 9000`
in exact arithmetic. -/
def numberOfParticles (width height : ℚ) : ℚ :=
  width * height / 9000

/-- Number of iterations of the loop
`for (let i = 0; i < numberOfParticles; i++)` (App.tsx line 223):
one iteration for each natural `i` with `i < numberOfParticles`,
i.e. `⌈numberOfParticles⌉₊` iterations. -/
def initCount (width height : ℚ) : ℕ :=
  Nat.ceil (numberOfParticles width height)

/-- `init` (App.tsx lines 220-226): clear the collection and push one
freshly constructed particle per loop iteration; `rand i` supplies the
five `Math.random()` draws of iteration `i`. -/
def initParticles (width height : ℚ) (rand : ℕ → ℚ × ℚ × ℚ × ℚ × ℚ) : List Particle :=
  (List.range (initCount width height)).map fun i =>
    Particle.create width height (rand i).1 (rand i).2.1 (rand i).2.2.1
      (rand i).2.2.2.1 (rand i).2.2.2.2

/-- All five random draws of a sampler lie in `[0, 1)`. -/
def RandInRange (rand : ℕ → ℚ × ℚ × ℚ × ℚ × ℚ) : Prop :=
  ∀ i : ℕ, (0 ≤ (rand i).1 ∧ (rand i).1 < 1) ∧
    (0 ≤ (rand i).2.1 ∧ (rand i).2.1 < 1) ∧
    (0 ≤ (rand i).2.2.1 ∧ (rand i).2.2.1 < 1) ∧
    (0 ≤ (rand i).2.2.2.1 ∧ (rand i).2.2.2.1 < 1) ∧
    (0 ≤ (rand i).2.2.2.2 ∧ (rand i).2.2.2.2 < 1)

lemma mul_mem_unit (r w : ℚ) (hr0 : 0 ≤ r) (hr1 : r < 1) (hw : 0 ≤ w) :
    0 ≤ r * w ∧ r * w ≤ w := by
  refine ⟨mul_nonneg hr0 hw, ?_⟩
  have h1 : r * w ≤ 1 * w := mul_le_mul_of_nonneg_right (le_of_lt hr1) hw
  simpa using h1

/-- A coordinate lies in the closed interval `[0, extent]`. -/
def InBox (extent x : ℚ) : Prop := 0 ≤ x ∧ x ≤ extent

/-- One-axis invariant of the reflect-on-boundary rule: the coordinate
is inside `[0, extent]`, or the very next step (adding the current
speed) lands inside. -/
def AxisInv (extent x s : ℚ) : Prop := InBox extent x ∨ InBox extent (x + s)

/-- Both axes of a particle satisfy the reflection invariant. -/
def ParticleInv (width height : ℚ) (p : Particle) : Prop :=
  AxisInv width p.x p.speedX ∧ AxisInv height p.y p.speedY

/-- Iterated `Particle.update`. -/
def updateN (width height : ℚ) : ℕ → Particle → Particle
  | 0, p => p
  | n + 1, p => Particle.update width height (updateN width height n p)

lemma axis_step (extent x s : ℚ) (hinv : AxisInv extent x s) :
    AxisInv extent (x + s) (if x + s > extent ∨ x + s < 0 then -s else s) ∧
    (-(3/2) ≤ s → s ≤ 3/2 → -(3/2) ≤ x + s ∧ x + s ≤ extent + 3/2) := by
  by_cases hout : x + s > extent ∨ x + s < 0
  · rw [if_pos hout]
    rcases hinv with hin | hin
    · refine ⟨Or.inr ?_, fun hs1 hs2 => ?_⟩
      · have : x + s + -s = x := by ring
        rw [this]; exact hin
      · obtain ⟨hx0, hxw⟩ := hin
        constructor <;> linarith
    · exfalso
      obtain ⟨h0, hw⟩ := hin
      rcases hout with h | h <;> linarith
  · rw [if_neg hout]
    push_neg at hout
    obtain ⟨h1, h2⟩ := hout
    refine ⟨Or.inl ⟨h2, h1⟩, fun hs1 hs2 => ⟨by linarith, by linarith⟩⟩

lemma particle_step_inv (width height : ℚ) (p : Particle)
    (hinv : ParticleInv width height p)
    (hsx : -(3/2) ≤ p.speedX ∧ p.speedX ≤ 3/2)
    (hsy : -(3/2) ≤ p.speedY ∧ p.speedY ≤ 3/2) :
    ParticleInv width height (p.update width height) ∧
    (-(3/2) ≤ (p.update width height).speedX ∧ (p.update width height).speedX ≤ 3/2) ∧
    (-(3/2) ≤ (p.update width height).speedY ∧ (p.update width height).speedY ≤ 3/2) ∧
    (-(3/2) ≤ (p.update width height).x ∧ (p.update width height).x ≤ width + 3/2) ∧
    (-(3/2) ≤ (p.update width height).y ∧ (p.update width height).y ≤ height + 3/2) := by
  obtain ⟨hix, hiy⟩ := hinv
  have hx := axis_step width p.x p.speedX hix
  have hy := axis_step height p.y p.speedY hiy
  refine ⟨⟨hx.1, hy.1⟩, ?_, ?_, hx.2 hsx.1 hsx.2, hy.2 hsy.1 hsy.2⟩
  · show -(3/2) ≤ (if p.x + p.speedX > width ∨ p.x + p.speedX < 0 then -p.speedX else p.speedX) ∧
      (if p.x + p.speedX > width ∨ p.x + p.speedX < 0 then -p.speedX else p.speedX) ≤ 3/2
    by_cases h : p.x + p.speedX > width ∨ p.x + p.speedX < 0 <;>
      simp only [h, if_true, if_false] <;> constructor <;> linarith [hsx.1, hsx.2]
  · show -(3/2) ≤ (if p.y + p.speedY > height ∨ p.y + p.speedY < 0 then -p.speedY else p.speedY) ∧
      (if p.y + p.speedY > height ∨ p.y + p.speedY < 0 then -p.speedY else p.speedY) ≤ 3/2
    by_cases h : p.y + p.speedY > height ∨ p.y + p.speedY < 0 <;>
      simp only [h, if_true, if_false] <;> constructor <;> linarith [hsy.1, hsy.2]

lemma updateN_inv (width height : ℚ) (p : Particle)
    (hinv : ParticleInv width height p)
    (hsx : -(3/2) ≤ p.speedX ∧ p.speedX ≤ 3/2)
    (hsy : -(3/2) ≤ p.speedY ∧ p.speedY ≤ 3/2) :
    ∀ n : ℕ, ParticleInv width height (updateN width height n p) ∧
      (-(3/2) ≤ (updateN width height n p).speedX ∧ (updateN width height n p).speedX ≤ 3/2) ∧
      (-(3/2) ≤ (updateN width height n p).speedY ∧ (updateN width height n p).speedY ≤ 3/2) := by
  intro n
  induction n with
  | zero => exact ⟨hinv, hsx, hsy⟩
  | succ n ih =>
      have h := particle_step_inv width height (updateN width height n p) ih.1 ih.2.1 ih.2.2
      exact ⟨h.1, h.2.1, h.2.2.1⟩

/-- **C3 (counterexample).** At surface dimensions `100 × 91` the loop
`for (let i = 0; i < 9100/9000; i++)` runs for `i = 0` and `i = 1`
(both are `< 9100/9000`), producing 2 particles, while
`floor(100*91/9000) = 1`: the regenerated collection does not have
exactly `floor(width*height/9000)` elements. -/
theorem particle_count_not_floor :
    (initParticles 100 91 (fun _ => (0, 0, 0, 0, 0))).length = 2 ∧
    Nat.floor (numberOfParticles 100 91) = 1 := by
  constructor
  · have hlen : (initParticles 100 91 (fun _ => (0, 0, 0, 0, 0))).length =
        initCount 100 91 := by
      unfold initParticles
      rw [List.length_map, List.length_range]
    rw [hlen]
    unfold initCount numberOfParticles
    rw [Nat.ceil_eq_iff (by norm_num)]
    constructor <;> norm_num
  · unfold numberOfParticles
    rw [Nat.floor_eq_iff (by norm_num)]
    constructor <;> norm_num

/-- **C3 (amended).** For every mount/resize with surface dimensions
`width × height` (both non-negative) and random draws in `[0,1)`, the
regenerated collection has exactly `⌈width*height/9000⌉` elements (the
loop bound is not floored: one particle is pushed for each natural
`i < width*height/9000`, which is the floor only when `9000` divides
`width*height` exactly), and every regenerated particle has initial
position in `[0,width] × [0,height]`, radius in `[1,6)`, and each
velocity component in `[-1.5,1.5)`. -/
theorem particle_init_spec (width height : ℚ) (rand : ℕ → ℚ × ℚ × ℚ × ℚ × ℚ)
    (hw : 0 ≤ width) (hh : 0 ≤ height) (hr : RandInRange rand) :
    (initParticles width height rand).length = Nat.ceil (numberOfParticles width height) ∧
    ∀ p ∈ initParticles width height rand,
      (0 ≤ p.x ∧ p.x ≤ width) ∧ (0 ≤ p.y ∧ p.y ≤ height) ∧
      (1 ≤ p.size ∧ p.size < 6) ∧
      (-(3/2) ≤ p.speedX ∧ p.speedX < 3/2) ∧
      (-(3/2) ≤ p.speedY ∧ p.speedY < 3/2) := by
  constructor
  · unfold initParticles
    rw [List.length_map, List.length_range]
    rfl
  · intro p hp
    unfold initParticles at hp
    rw [List.mem_map] at hp
    obtain ⟨i, _, hpi⟩ := hp
    obtain ⟨⟨h10, h11⟩, ⟨h20, h21⟩, ⟨h30, h31⟩, ⟨h40, h41⟩, ⟨h50, h51⟩⟩ := hr i
    subst hpi
    unfold Particle.create
    refine ⟨mul_mem_unit _ _ h10 h11 hw, mul_mem_unit _ _ h20 h21 hh, ?_, ?_, ?_⟩
    · constructor <;> simp only <;> nlinarith
    · constructor <;> simp only <;> nlinarith
    · constructor <;> simp only <;> nlinarith

/-- Witness for C3's amended theorem at `width = 100`, `height = 91`
with all draws `1/2`. -/
theorem particle_init_spec_witness :
    (initParticles 100 91 (fun _ => (1/2, 1/2, 1/2, 1/2, 1/2))).length =
      Nat.ceil (numberOfParticles 100 91) ∧
    ∀ p ∈ initParticles 100 91 (fun _ => (1/2, 1/2, 1/2, 1/2, 1/2)),
      (0 ≤ p.x ∧ p.x ≤ 100) ∧ (0 ≤ p.y ∧ p.y ≤ 91) ∧
      (1 ≤ p.size ∧ p.size < 6) ∧
      (-(3/2) ≤ p.speedX ∧ p.speedX < 3/2) ∧
      (-(3/2) ≤ p.speedY ∧ p.speedY < 3/2) :=
  particle_init_spec 100 91 (fun _ => (1/2, 1/2, 1/2, 1/2, 1/2))
    (by norm_num) (by norm_num) (fun i => by norm_num)

/-- **C4 (counterexample).** The particle created on a `10 × 10`
surface from the draws `(19/20, 1/2, 1/5, 5/6, 1/2)` starts at
`x = 9.5` with `speedX = 1`; after one update step its position is
`x = 10.5 ∉ [0, 10]`: positions are not always within
`[0, surfaceWidth] × [0, surfaceHeight]` after an update step. -/
theorem particle_leaves_box :
    ((Particle.create 10 10 (19/20) (1/2) (1/5) (5/6) (1/2)).update 10 10).x = 21/2 ∧
    ¬ (((Particle.create 10 10 (19/20) (1/2) (1/5) (5/6) (1/2)).update 10 10).x ≤ 10) := by
  constructor
  · show (19:ℚ)/20 * 10 + (5/6 * 3 - 3/2) = 21/2
    norm_num
  · show ¬ ((19:ℚ)/20 * 10 + (5/6 * 3 - 3/2) ≤ 10)
    norm_num

/-- **C4 (amended).** For every particle starting inside the surface
with velocity components of magnitude at most `1.5` (as produced by the
constructor), and every number of update steps, the position stays
within the surface enlarged by the maximal speed:
`[-1.5, surfaceWidth + 1.5] × [-1.5, surfaceHeight + 1.5]`.  The
position may leave `[0, surfaceWidth] × [0, surfaceHeight]` for a step
(reflection negates the velocity but does not correct the position, see
the counterexample), and the step after an excursion returns it
inside. -/
theorem particle_box_invariant (width height : ℚ) (p : Particle)
    (hx : 0 ≤ p.x ∧ p.x ≤ width) (hy : 0 ≤ p.y ∧ p.y ≤ height)
    (hsx : -(3/2) ≤ p.speedX ∧ p.speedX ≤ 3/2)
    (hsy : -(3/2) ≤ p.speedY ∧ p.speedY ≤ 3/2) :
    ∀ n : ℕ,
      (-(3/2) ≤ (updateN width height (n + 1) p).x ∧
        (updateN width height (n + 1) p).x ≤ width + 3/2) ∧
      (-(3/2) ≤ (updateN width height (n + 1) p).y ∧
        (updateN width height (n + 1) p).y ≤ height + 3/2) := by
  intro n
  have hinv : ParticleInv width height p := ⟨Or.inl hx, Or.inl hy⟩
  have h := updateN_inv width height p hinv hsx hsy n
  have hstep := particle_step_inv width height (updateN width height n p) h.1 h.2.1 h.2.2
  exact ⟨hstep.2.2.2.1, hstep.2.2.2.2⟩

/-- Witness for C4's amended theorem: surface `10 × 10`, particle at
`(9.5, 5)` with velocity `(1, 0)`, three update steps (the first step
leaves the surface, later steps stay in the enlarged box). -/
theorem particle_box_invariant_witness :
    (-(3/2) ≤ (updateN 10 10 (2 + 1) (Particle.mk (19/2) 5 2 1 0)).x ∧
      (updateN 10 10 (2 + 1) (Particle.mk (19/2) 5 2 1 0)).x ≤ 10 + 3/2) ∧
    (-(3/2) ≤ (updateN 10 10 (2 + 1) (Particle.mk (19/2) 5 2 1 0)).y ∧
      (updateN 10 10 (2 + 1) (Particle.mk (19/2) 5 2 1 0)).y ≤ 10 + 3/2) :=
  particle_box_invariant 10 10 (Particle.mk (19/2) 5 2 1 0)
    (by norm_num) (by norm_num) (by norm_num) (by norm_num) 2

/-- **C5.** When a particle's position after adding its velocity falls
outside `[0, width]` on the x-axis, the update step negates the
x-velocity and leaves the position exactly at `x + speedX` (reflection,
never clamping); the y-axis outcome is a function of the y-components
alone (any particle with the same `y` and `speedY` gets the same new
`y` and `speedY`), so the axes are treated independently.  By the
symmetry of `Particle.update` in the two axes the same holds with the
axes swapped. -/
theorem particle_reflects (width height : ℚ) (p : Particle)
    (hout : width < p.x + p.speedX ∨ p.x + p.speedX < 0) :
    (p.update width height).x = p.x + p.speedX ∧
    (p.update width height).speedX = -p.speedX ∧
    ∀ q : Particle, q.y = p.y → q.speedY = p.speedY →
      (q.update width height).y = (p.update width height).y ∧
      (q.update width height).speedY = (p.update width height).speedY := by
  refine ⟨rfl, ?_, ?_⟩
  · show (if p.x + p.speedX > width ∨ p.x + p.speedX < 0 then -p.speedX else p.speedX) = -p.speedX
    rw [if_pos hout]
  · intro q hqy hqs
    constructor
    · show q.y + q.speedY = p.y + p.speedY
      rw [hqy, hqs]
    · show (if q.y + q.speedY > height ∨ q.y + q.speedY < 0 then -q.speedY else q.speedY) =
        (if p.y + p.speedY > height ∨ p.y + p.speedY < 0 then -p.speedY else p.speedY)
      rw [hqy, hqs]

/-- Witness for C5: surface `10 × 10`, particle at `x = 10.2` (just past
the right edge) with positive x-velocity `1/2`; a second particle with
the same y-components but different x-components gets the same y-axis
outcome. -/
theorem particle_reflects_witness :
    ((Particle.mk (51/5) 5 2 (1/2) 0).update 10 10).x = 51/5 + 1/2 ∧
    ((Particle.mk (51/5) 5 2 (1/2) 0).update 10 10).speedX = -(1/2) ∧
    (((Particle.mk 0 5 1 (1/4) 0).update 10 10).y =
      ((Particle.mk (51/5) 5 2 (1/2) 0).update 10 10).y ∧
     ((Particle.mk 0 5 1 (1/4) 0).update 10 10).speedY =
      ((Particle.mk (51/5) 5 2 (1/2) 0).update 10 10).speedY) := by
  have h := particle_reflects 10 10 (Particle.mk (51/5) 5 2 (1/2) 0) (by left; norm_num)
  exact ⟨h.1, h.2.1, h.2.2 (Particle.mk 0 5 1 (1/4) 0) rfl rfl⟩

/-! ### Visibility hook (`useIntersectionObserver`, App.tsx lines 11-41)

The hook's state is the `isInView` flag plus whether the element is
still observed.  Observer callbacks are modelled as a list of
intersection ratios delivered while the element is observed;
`entry.isIntersecting` is modelled from the spec of the external
observer API as "the visible fraction reaches or exceeds the
threshold". -/

/-- `isInView` flag (App.tsx line 12) and whether `observer.observe`
is still in force for the element. -/
structure VisibilityState where
  isInView : Bool
  observing : Bool
deriving Repr, DecidableEq

/-- On mount: flag `false` (line 12), element observed (line 28). -/
def visInitial : VisibilityState :=
  { isInView := false, observing := true }

/-- One observer callback (App.tsx lines 17-24): delivered only while
the element is observed; when the entry is intersecting (visible
fraction `ratio` at least the threshold `t`), set the flag and
`unobserve` the element. -/
def observerStep (t : ℚ) (s : VisibilityState) (ratio : ℚ) : VisibilityState :=
  if s.observing = true then
    if t ≤ ratio then { isInView := true, observing := false }
    else s
  else s

/-- A run of the hook over a list of delivered intersection ratios. -/
def runObserver (t : ℚ) (s : VisibilityState) (rs : List ℚ) : VisibilityState :=
  rs.foldl (observerStep t) s

lemma runObserver_stopped (t : ℚ) (s : VisibilityState) (h : s.observing = false) :
    ∀ rs : List ℚ, runObserver t s rs = s := by
  intro rs
  induction rs with
  | nil => rfl
  | cons r rs ih =>
      show runObserver t (observerStep t s r) rs = s
      have : observerStep t s r = s := by
        unfold observerStep
        simp [h]
      rw [this]
      exact ih

lemma runObserver_true (t : ℚ) :
    ∀ rs : List ℚ, (runObserver t visInitial rs).isInView = true →
      runObserver t visInitial rs = { isInView := true, observing := false } ∧
      ∃ pre x post, rs = pre ++ x :: post ∧ t ≤ x := by
  intro rs
  induction rs with
  | nil =>
      intro h
      simp [runObserver, visInitial] at h
  | cons r rs ih =>
      intro h
      by_cases hr : t ≤ r
      · have hstep : observerStep t visInitial r =
            { isInView := true, observing := false } := by
          unfold observerStep visInitial
          simp [hr]
        have hrun : runObserver t visInitial (r :: rs) =
            { isInView := true, observing := false } := by
          show runObserver t (observerStep t visInitial r) rs = _
          rw [hstep]
          exact runObserver_stopped t _ rfl rs
        exact ⟨hrun, [], r, rs, rfl, hr⟩
      · have hstep : observerStep t visInitial r = visInitial := by
          unfold observerStep visInitial
          simp [hr]
        have hrun : runObserver t visInitial (r :: rs) = runObserver t visInitial rs := by
          show runObserver t (observerStep t visInitial r) rs = _
          rw [hstep]
        rw [hrun] at h
        obtain ⟨hres, pre, x, post, hsplit, hx⟩ := ih h
        exact ⟨by rw [hrun]; exact hres, r :: pre, x, post, by rw [hsplit]; rfl, hx⟩

/-- **C6.** For every threshold `t ∈ [0,1]`: the flag starts `false`;
whenever a run of delivered callbacks ends with the flag `true`, some
delivered visible fraction reached the threshold, the element has been
deregistered, and every further sequence of callbacks leaves the state
unchanged (so the flag transitioned `false → true` at most once and
never back); moreover no single callback ever turns the flag from
`true` to `false`. -/
theorem visibility_one_shot (t : ℚ) (rs rs' : List ℚ)
    (ht0 : 0 ≤ t) (ht1 : t ≤ 1)
    (h : (runObserver t visInitial rs).isInView = true) :
    visInitial.isInView = false ∧
    (runObserver t visInitial rs).observing = false ∧
    runObserver t (runObserver t visInitial rs) rs' = runObserver t visInitial rs ∧
    (∃ pre x post, rs = pre ++ x :: post ∧ t ≤ x) ∧
    (∀ s : VisibilityState, ∀ q : ℚ, s.isInView = true →
      (observerStep t s q).isInView = true) := by
  obtain ⟨hres, hsplit⟩ := runObserver_true t rs h
  refine ⟨rfl, by rw [hres], ?_, hsplit, ?_⟩
  · exact runObserver_stopped t _ (by rw [hres]) rs'
  · intro s q hs
    unfold observerStep
    by_cases ho : s.observing = true
    · by_cases hq : t ≤ q <;> simp [ho, hq, hs]
    · simp [ho, hs]

/-- Witness for C6: threshold `1/10` (the value used by the sections of
the page), ratios `[0, 1/2]` delivered, then two more callbacks. -/
theorem visibility_one_shot_witness :
    visInitial.isInView = false ∧
    (runObserver (1/10) visInitial [0, 1/2]).observing = false ∧
    runObserver (1/10) (runObserver (1/10) visInitial [0, 1/2]) [0, 1] =
      runObserver (1/10) visInitial [0, 1/2] ∧
    (∃ pre x post, ([0, 1/2] : List ℚ) = pre ++ x :: post ∧ (1/10 : ℚ) ≤ x) ∧
    (∀ s : VisibilityState, ∀ q : ℚ, s.isInView = true →
      (observerStep (1/10) s q).isInView = true) :=
  visibility_one_shot (1/10) [0, 1/2] [0, 1] (by norm_num) (by norm_num)
    (by norm_num [runObserver, observerStep, visInitial])

/-! ### RSVP form (`RsvpPage`, App.tsx lines 1301-1344) -/

/-- The five form fields, in the order of their `useState` declarations
(App.tsx lines 1302-1306). -/
structure RsvpForm where
  name : String
  contact : String
  isAttending : Bool
  guests : ℕ
  message : String
deriving Repr, DecidableEq

/-- `submissionStatus` (App.tsx lines 1307-1309). -/
inductive SubmissionStatus
  | idle
  | submitting
  | success
  | error
deriving Repr, DecidableEq

/-- The component state of `RsvpPage`. -/
structure RsvpState where
  form : RsvpForm
  submissionStatus : SubmissionStatus
deriving Repr, DecidableEq

/-- Outcome of the fire-and-forget `fetch` call: it resolves, or it
raises a transport-level exception (no response body is readable in
`no-cors` mode). -/
inductive TransportResult
  | ok
  | raise
deriving Repr, DecidableEq

/-- The `FormData` entries built before the `fetch`
(App.tsx lines 1315-1322), in source order. -/
def formEntries (f : RsvpForm) : List (String × String) :=
  [ ("entry.417451165", f.name)
  , ("entry.1713735447", f.contact)
  , ("entry.1349849489", if f.isAttending then "Yes" else "No")
  , ("entry.744453682", Nat.repr f.guests)
  , ("entry.383237546", f.message) ]

/-- `handleSubmit` (App.tsx lines 1311-1344): the status passes through
`submitting`, the entries are built from the current fields and
dispatched; if the `fetch` resolves, the status becomes `success` and
every field is reset to its empty default (`''`, `''`, attending,
`1`, `''`); if it raises, the status becomes `error` and the fields are
untouched.  The result is the final component state paired with the
dispatched entries. -/
def handleSubmit (s : RsvpState) (t : TransportResult) :
    RsvpState × List (String × String) :=
  match t with
  | TransportResult.ok =>
      ( { form := { name := "", contact := "", isAttending := true
                  , guests := 1, message := "" }
        , submissionStatus := SubmissionStatus.success }
      , formEntries s.form )
  | TransportResult.raise =>
      ( { s with submissionStatus := SubmissionStatus.error }
      , formEntries s.form )

/-- **C7.** For every submission with the required fields populated:
if the transport call resolves, the status becomes `success` and all
fields are reset to their empty defaults (name `""`, contact `""`,
guests `1`, attending yes, message `""`); if the transport call raises,
the status becomes `error` and every field value is unchanged. -/
theorem rsvp_submit_outcome (s : RsvpState)
    (hname : s.form.name ≠ "") (hcontact : s.form.contact ≠ "") :
    (handleSubmit s TransportResult.ok).1.submissionStatus = SubmissionStatus.success ∧
    (handleSubmit s TransportResult.ok).1.form =
      { name := "", contact := "", isAttending := true, guests := 1, message := "" } ∧
    (handleSubmit s TransportResult.raise).1.submissionStatus = SubmissionStatus.error ∧
    (handleSubmit s TransportResult.raise).1.form = s.form := by
  exact ⟨rfl, rfl, rfl, rfl⟩

/-- Witness for C7 at a concrete populated form. -/
theorem rsvp_submit_outcome_witness :
    (handleSubmit ⟨⟨"Ana Cruz", "09171234567", true, 2, "see you"⟩,
        SubmissionStatus.idle⟩ TransportResult.ok).1.submissionStatus =
      SubmissionStatus.success ∧
    (handleSubmit ⟨⟨"Ana Cruz", "09171234567", true, 2, "see you"⟩,
        SubmissionStatus.idle⟩ TransportResult.ok).1.form =
      { name := "", contact := "", isAttending := true, guests := 1, message := "" } ∧
    (handleSubmit ⟨⟨"Ana Cruz", "09171234567", true, 2, "see you"⟩,
        SubmissionStatus.idle⟩ TransportResult.raise).1.submissionStatus =
      SubmissionStatus.error ∧
    (handleSubmit ⟨⟨"Ana Cruz", "09171234567", true, 2, "see you"⟩,
        SubmissionStatus.idle⟩ TransportResult.raise).1.form =
      ⟨"Ana Cruz", "09171234567", true, 2, "see you"⟩ :=
  rsvp_submit_outcome ⟨⟨"Ana Cruz", "09171234567", true, 2, "see you"⟩,
    SubmissionStatus.idle⟩ (by decide) (by decide)

/-! ### Navbar and page routing (`Navbar`, App.tsx lines 72-165) -/

/-- The router state: `currentPage` (App.tsx line 48, read by `Navbar`)
and the mobile menu's `isOpen` flag (line 73). -/
structure NavState where
  currentPage : String
  isOpen : Bool
deriving Repr, DecidableEq

/-- The scroll a navigation action requests: immediate
`scrollIntoView`, or one deferred by `setTimeout` with a delay in
milliseconds. -/
inductive ScrollEffect
  | immediate (id : String)
  | deferred (delayMs : ℕ) (id : String)
deriving Repr, DecidableEq

/-- `handleScrollToSection` (App.tsx lines 80-97): when not on the home
page, switch to home and defer the scroll by 100 ms; otherwise scroll
immediately; in both cases close the mobile menu. -/
def handleScrollToSection (s : NavState) (id : String) : NavState × ScrollEffect :=
  if s.currentPage ≠ "home" then
    ({ currentPage := "home", isOpen := false }, ScrollEffect.deferred 100 id)
  else
    ({ s with isOpen := false }, ScrollEffect.immediate id)

/-- The Entourage links (App.tsx lines 142 and 159): their click
handler only sets the page; the menu flag is not touched. -/
def clickEntourage (s : NavState) : NavState :=
  { s with currentPage := "entourage" }

/-- **C8 (counterexample).** Clicking the Entourage link with the
mobile menu open switches the view to `entourage` but leaves the menu
flag `true`: the view-switch navigation to `entourage` does not close
the menu. -/
theorem entourage_keeps_menu_open :
    (clickEntourage ⟨"home", true⟩).currentPage = "entourage" ∧
    (clickEntourage ⟨"home", true⟩).isOpen = true :=
  ⟨rfl, rfl⟩

/-- **C8 (amended).** After every anchor-navigation action
(`handleScrollToSection`), from any starting view and any menu state,
the mobile menu's open flag is `false`; the view-switch navigation to
`entourage`, however, leaves the flag unchanged (so the menu stays
open if it was open). -/
theorem nav_menu_closing (s : NavState) (id : String) :
    (handleScrollToSection s id).1.isOpen = false ∧
    (clickEntourage s).isOpen = s.isOpen := by
  refine ⟨?_, rfl⟩
  unfold handleScrollToSection
  by_cases h : s.currentPage ≠ "home" <;> simp [h]

/-- **C9.** For every anchor-navigation invocation: from the home view
the scroll is requested immediately; from any other view (i.e.
`entourage`, the only other view) the state first transitions to
`home` and the scroll is deferred by the fixed 100 ms delay; in both
cases the final view is `home`. -/
theorem anchor_navigation (s : NavState) (id : String)
    (hview : s.currentPage = "home" ∨ s.currentPage = "entourage") :
    (s.currentPage = "home" →
      handleScrollToSection s id = ({ s with isOpen := false }, ScrollEffect.immediate id)) ∧
    (s.currentPage = "entourage" →
      handleScrollToSection s id =
        (⟨"home", false⟩, ScrollEffect.deferred 100 id)) ∧
    (handleScrollToSection s id).1.currentPage = "home" := by
  refine ⟨fun h => ?_, fun h => ?_, ?_⟩
  · unfold handleScrollToSection
    simp [h]
  · unfold handleScrollToSection
    simp [h]
  · unfold handleScrollToSection
    by_cases h : s.currentPage ≠ "home"
    · simp [h]
    · push_neg at h
      simp [h]

/-- Witness for C9: starting in `entourage` with the menu open and
navigating to the `rsvp` anchor ends in the `home` view with a
deferred scroll. -/
theorem anchor_navigation_witness :
    handleScrollToSection ⟨"entourage", true⟩ "rsvp" =
      (⟨"home", false⟩, ScrollEffect.deferred 100 "rsvp") ∧
    (handleScrollToSection ⟨"entourage", true⟩ "rsvp").1.currentPage = "home" :=
  ⟨(anchor_navigation ⟨"entourage", true⟩ "rsvp" (Or.inr rfl)).2.1 rfl,
   (anchor_navigation ⟨"entourage", true⟩ "rsvp" (Or.inr rfl)).2.2⟩

/-! ### Guest count (`RsvpPage` guests select, App.tsx lines 1410-1428) -/

/-- The option values offered by the guests select:
`[...Array(10).keys()].map(num => num + 1)` (App.tsx lines 1422-1426). -/
def guestOptions : List ℕ :=
  (List.range 10).map (fun num => num + 1)

/-- The events that modify the `guests` state: choosing an option in
the select (App.tsx line 1418), a resolved submission (line 1337,
reset to 1), or a failed submission (lines 1340-1343, no change). -/
inductive GuestEvent
  | select (n : ℕ)
  | submitOk
  | submitFail
deriving Repr, DecidableEq

/-- Effect of one event on the `guests` state. -/
def guestStep (g : ℕ) (e : GuestEvent) : ℕ :=
  match e with
  | GuestEvent.select n => n
  | GuestEvent.submitOk => 1
  | GuestEvent.submitFail => g

/-- The `guests` state after a sequence of events, starting from the
initial value `1` (App.tsx line 1305). -/
def runGuests (es : List GuestEvent) : ℕ :=
  es.foldl guestStep 1

/-- Every select event in the list chooses one of the offered options. -/
def ValidGuestEvents (es : List GuestEvent) : Prop :=
  ∀ n : ℕ, GuestEvent.select n ∈ es → n ∈ guestOptions

lemma guestOptions_bounds (n : ℕ) (h : n ∈ guestOptions) : 1 ≤ n ∧ n ≤ 10 := by
  unfold guestOptions at h
  rw [List.mem_map] at h
  obtain ⟨m, hm, hmn⟩ := h
  rw [List.mem_range] at hm
  omega

lemma runGuests_aux (es : List GuestEvent) :
    ∀ g : ℕ, 1 ≤ g → g ≤ 10 →
      (∀ n : ℕ, GuestEvent.select n ∈ es → n ∈ guestOptions) →
      1 ≤ es.foldl guestStep g ∧ es.foldl guestStep g ≤ 10 := by
  induction es with
  | nil => intro g h1 h2 _; exact ⟨h1, h2⟩
  | cons e es ih =>
      intro g h1 h2 hval
      have hval' : ∀ n : ℕ, GuestEvent.select n ∈ es → n ∈ guestOptions :=
        fun n hn => hval n (List.mem_cons_of_mem e hn)
      rw [List.foldl_cons]
      cases e with
      | select n =>
          have hn := guestOptions_bounds n (hval n (List.mem_cons_self _ _))
          exact ih n hn.1 hn.2 hval'
      | submitOk => exact ih 1 (by omega) (by omega) hval'
      | submitFail => exact ih g h1 h2 hval'

/-- **C10.** The guest count starts at `1`, every select event chooses
one of the offered options `1..10`, and a resolved submission resets it
to `1`; hence after any valid event sequence the guest count is an
integer in `[1, 10]`, and the dispatched submission payload carries
exactly that value (as the decimal string of the `entry.744453682`
entry). -/
theorem guests_in_range (es : List GuestEvent) (hes : ValidGuestEvents es)
    (f : RsvpForm) (st : SubmissionStatus) (t : TransportResult)
    (hf : f.guests = runGuests es) :
    1 ≤ f.guests ∧ f.guests ≤ 10 ∧
    ("entry.744453682", Nat.repr f.guests) ∈ (handleSubmit ⟨f, st⟩ t).2 := by
  have h := runGuests_aux es 1 (by omega) (by omega) hes
  rw [hf]
  refine ⟨h.1, h.2, ?_⟩
  cases t <;> simp [handleSubmit, formEntries, hf]

/-- Witness for C10: the sequence "select 10 guests, then a failed
submission" leaves the count at `10`, inside `[1, 10]`, and the payload
carries `"10"`. -/
theorem guests_in_range_witness :
    1 ≤ (RsvpForm.mk "Ana" "0917" true 10 "").guests ∧
    (RsvpForm.mk "Ana" "0917" true 10 "").guests ≤ 10 ∧
    ("entry.744453682", Nat.repr (RsvpForm.mk "Ana" "0917" true 10 "").guests) ∈
      (handleSubmit ⟨RsvpForm.mk "Ana" "0917" true 10 "", SubmissionStatus.idle⟩
        TransportResult.raise).2 :=
  guests_in_range [GuestEvent.select 10, GuestEvent.submitFail]
    (by
      intro n hn
      simp only [List.mem_cons, List.not_mem_nil, or_false] at hn
      rcases hn with h | h
      · cases h; decide
      · exact GuestEvent.noConfusion h)
    (RsvpForm.mk "Ana" "0917" true 10 "") SubmissionStatus.idle TransportResult.raise rfl
